import Mathlib

/-!
# Verification of the Messenger real-time layer

Shallow embedding of the socket-layer of `src/server/index.js` (a socket.io
messenger server backed by a SQLite store, `src/server/database.js`).

Modelling conventions:
* User ids are `Nat` (SQLite `INTEGER PRIMARY KEY AUTOINCREMENT`).
* Socket ids are `Nat` (opaque identifiers in the source).
* Timestamps are `Nat`; both the SQLite `CURRENT_TIMESTAMP` a row acquires at
  insert time and the `new Date().toISOString()` used for the wire copy of a
  message are modelled by a single clock parameter `now` (ISO-8601 strings
  compare chronologically, so `Nat` order is faithful).
* The JS `Map` used for `onlineUsers` is modelled as an association list in
  insertion order: `set` of a present key overwrites in place, `set` of a fresh
  key appends, `delete` filters — exactly JS `Map` iteration semantics.
* Each socket.io handler becomes a pure function from the server state, the
  connection record and the event payload to the updated state plus the list of
  emitted effects.  Asynchronous outcomes of external calls (jwt verification,
  the SQLite INSERT) are passed in as explicit outcome parameters.
-/

/-- A row of the `users` table (credential hash not modelled: the socket layer
never reads it). -/
structure User where
  id : Nat
  name : String
  phone : String
deriving DecidableEq

/-- A row of the `messages` table: `INSERT INTO messages (sender_id,
receiver_id, content)`, with `id` auto-assigned and `timestamp` defaulted to
the insert-time clock. -/
structure MessageRow where
  id : Nat
  sender_id : Nat
  receiver_id : Nat
  content : String
  timestamp : Nat
deriving DecidableEq

/-- The formatted message object sent over the wire (`message_history` items
and `new_message` payloads): row fields plus the resolved sender name. -/
structure WireMessage where
  id : Nat
  senderId : Nat
  receiverId : Nat
  content : String
  timestamp : Nat
  senderName : String
deriving DecidableEq

/-- A value of the `onlineUsers` Map: `{userId, name, phone, socketId,
connectedAt}`. -/
structure OnlineEntry where
  userId : Nat
  name : String
  phone : String
  socketId : Nat
  connectedAt : Nat
deriving DecidableEq

/-- Per-connection mutable fields the handlers touch: `socket.id`,
`socket.userId` (absent until authentication), `socket.userName`,
`socket.userPhone`. -/
structure Conn where
  sockId : Nat
  userId : Option Nat
  userName : String
  userPhone : String
deriving DecidableEq

/-- In-memory and persisted server state visible to the socket handlers.
`friends` is the `friends` table (present so that theorems can quantify over
it; the socket handlers never consult it).  `rooms` is socket.io room
membership as (room, socket) pairs in join order. -/
structure ServerState where
  users : List User
  friends : List (Nat × Nat)
  messages : List MessageRow
  nextId : Nat
  onlineUsers : List (Nat × OnlineEntry)
  rooms : List (String × Nat)
deriving DecidableEq

/-! ## Decimal rendering of user ids

`roomId` in the source is `[a, b].sort((x, y) => x - y).join('-')`: the two
numeric ids sorted ascending, rendered in decimal and joined with `'-'`.  We
embed the JS number-to-string conversion as a fuelled structural recursion so
that concrete instances compute by `decide`. -/

/-- The decimal digit character for `d` (JS `Number.prototype.toString`
digits). -/
def digitChar (d : Nat) : Char :=
  if d = 0 then '0' else if d = 1 then '1' else if d = 2 then '2'
  else if d = 3 then '3' else if d = 4 then '4' else if d = 5 then '5'
  else if d = 6 then '6' else if d = 7 then '7' else if d = 8 then '8'
  else '9'

/-- Decimal digits of `n`, most significant first; `fuel` bounds the
recursion (any `fuel > n` is enough). -/
def natDigits : Nat → Nat → List Char
  | 0, _ => []
  | fuel + 1, n =>
    if n < 10 then [digitChar n]
    else natDigits fuel (n / 10) ++ [digitChar (n % 10)]

/-- JS number-to-string for a natural number. -/
def natToString (n : Nat) : String :=
  String.mk (natDigits (n + 1) n)

/-- `roomId` as computed in the `join_conversation`, `send_message` and
`typing` handlers: sort the two ids ascending, join with `'-'`. -/
def roomId (a b : Nat) : String :=
  natToString (min a b) ++ "-" ++ natToString (max a b)

/-- Numeric value of a digit character. -/
def digitVal (c : Char) : Nat := c.toNat - 48

/-- Value of a most-significant-first digit string. -/
def digitsVal (l : List Char) : Nat :=
  l.foldl (fun acc c => 10 * acc + digitVal c) 0

/-- JS `String.prototype.trim` — strip leading and trailing whitespace —
embedded structurally on the character list (the `String.trim` of Lean works on
UTF-8 byte positions and does not reduce in the kernel). -/
def jsTrim (s : String) : String :=
  String.mk (((s.data.dropWhile Char.isWhitespace).reverse.dropWhile Char.isWhitespace).reverse)

/-! ## Events and effects -/

/-- Server-to-client events appearing in the socket handlers. -/
inductive OutEvent
  | authSuccess (user : User)
  | authError (msg : String)
  | messageHistory (msgs : List WireMessage)
  | newMessage (m : WireMessage)
  | userTyping (userId : Nat) (userName : String) (isTyping : Bool)
  | usersOnline (entries : List OnlineEntry)
  | error (msg : String)
deriving DecidableEq

/-- An emission performed by a handler, tagged with its socket.io addressing
mode.  `closeConnection` is the server-side `socket.disconnect()` capability;
no handler in the source ever uses it (so proofs that the effect list of a handler
contains no `closeConnection` say the connection is left open). -/
inductive Effect
  | toSocket (sid : Nat) (e : OutEvent)
  | toRoom (room : String) (e : OutEvent)
  | toRoomExcept (room : String) (senderSid : Nat) (e : OutEvent)
  | broadcastAll (e : OutEvent)
  | closeConnection (sid : Nat)
deriving DecidableEq

/-- The sockets currently joined to room `r`. -/
def roomMembers (st : ServerState) (r : String) : List Nat :=
  (st.rooms.filter (fun p => p.1 = r)).map (fun p => p.2)

/-- socket.io delivery: whether socket `sid` receives effect `e` in state
`st`.  `io.to(room).emit` reaches every member of the room;
`socket.to(room).emit` of the sending socket reaches every member except that
socket; `io.emit` reaches everyone. -/
def deliversTo (st : ServerState) (e : Effect) (sid : Nat) : Bool :=
  match e with
  | .toSocket s _ => decide (sid = s)
  | .toRoom r _ => decide (sid ∈ roomMembers st r)
  | .toRoomExcept r ex _ => decide (sid ∈ roomMembers st r) && decide (sid ≠ ex)
  | .broadcastAll _ => true
  | .closeConnection _ => false

/-- Whether an effect carries a `new_message` event. -/
def isNewMessageEffect : Effect → Bool
  | .toSocket _ (.newMessage _) => true
  | .toRoom _ (.newMessage _) => true
  | .toRoomExcept _ _ (.newMessage _) => true
  | .broadcastAll (.newMessage _) => true
  | _ => false

/-- Whether an effect carries an `auth_error` event. -/
def isAuthErrorEffect : Effect → Bool
  | .toSocket _ (.authError _) => true
  | .toRoom _ (.authError _) => true
  | .toRoomExcept _ _ (.authError _) => true
  | .broadcastAll (.authError _) => true
  | _ => false

/-! ## Store queries -/

/-- `SELECT ... FROM users WHERE id = ?` (first matching row). -/
def findUserById (users : List User) (uid : Nat) : Option User :=
  users.find? (fun u => u.id = uid)

/-- The `WHERE (sender = u AND receiver = f) OR (sender = f AND receiver = u)`
filter of the history query. -/
def pairRows (msgs : List MessageRow) (u f : Nat) : List MessageRow :=
  msgs.filter (fun m =>
    (m.sender_id = u && m.receiver_id = f) || (m.sender_id = f && m.receiver_id = u))

/-- The `JOIN users u ON m.sender_id = u.id` plus column formatting: each row
paired with the display name of its sender (rows whose sender has no user row are
dropped by the inner join). -/
def joinSenders (users : List User) (rows : List MessageRow) : List WireMessage :=
  rows.filterMap (fun m =>
    (findUserById users m.sender_id).map (fun u =>
      { id := m.id, senderId := m.sender_id, receiverId := m.receiver_id,
        content := m.content, timestamp := m.timestamp, senderName := u.name }))

/-- `ORDER BY m.timestamp ASC`: comparison on the timestamp column only. -/
def tsLE (a b : WireMessage) : Prop := a.timestamp ≤ b.timestamp

instance : DecidableRel tsLE := fun a b => Nat.decLe a.timestamp b.timestamp

instance : IsTotal WireMessage tsLE := ⟨fun a b => Nat.le_total a.timestamp b.timestamp⟩

instance : IsTrans WireMessage tsLE := ⟨fun _ _ _ hab hbc => Nat.le_trans hab hbc⟩

/-- The history query of the `join_conversation` handler (and, with
`limit = 100`, of `GET /api/messages/:friendId`): filter to the pair, join the
sender names, `ORDER BY timestamp ASC` (stable, as SQLite returns equal keys
in row order), `LIMIT limit`. -/
def historyQuery (users : List User) (msgs : List MessageRow) (u f : Nat)
    (limit : Nat) : List WireMessage :=
  (List.insertionSort tsLE (joinSenders users (pairRows msgs u f))).take limit

/-! ## Socket handlers -/

/-- Joining a socket.io room is idempotent. -/
def joinRoom (rooms : List (String × Nat)) (r : String) (s : Nat) :
    List (String × Nat) :=
  if (r, s) ∈ rooms then rooms else rooms ++ [(r, s)]

/-- JS `Map.prototype.set`: overwrite in place if the key is present
(iteration order keeps the original position), append otherwise. -/
def mapSet (m : List (Nat × OnlineEntry)) (k : Nat) (v : OnlineEntry) :
    List (Nat × OnlineEntry) :=
  if m.any (fun p => p.1 = k) then
    m.map (fun p => if p.1 = k then (k, v) else p)
  else m ++ [(k, v)]

/-- `Array.from(onlineUsers.values())`: the values of the Map in insertion order. -/
def usersOnlineList (st : ServerState) : List OnlineEntry :=
  st.onlineUsers.map (fun p => p.2)

/-- Outcome of `verifyToken` on the supplied credential: the token was absent,
failed jwt verification, or decoded to a user id. -/
inductive TokenOutcome
  | missing
  | invalid
  | decoded (id : Nat)
deriving DecidableEq

/-- The `authenticate` handler.  Note: no check that the connection is already
bound — a repeated authenticate silently rebinds `socket.userId` and
overwrites the `onlineUsers` entry for this socket. -/
def authenticateHandler (st : ServerState) (c : Conn) (tok : TokenOutcome)
    (now : Nat) : ServerState × Conn × List Effect :=
  match tok with
  | .missing => (st, c, [.toSocket c.sockId (.authError ("Token không được cung cấp"))])
  | .invalid => (st, c, [.toSocket c.sockId (.authError ("Token không hợp lệ"))])
  | .decoded uid =>
    match findUserById st.users uid with
    | none => (st, c, [.toSocket c.sockId (.authError ("Người dùng không tồn tại"))])
    | some u =>
      let c' : Conn := { c with userId := some u.id, userName := u.name, userPhone := u.phone }
      let entry : OnlineEntry :=
        { userId := u.id, name := u.name, phone := u.phone, socketId := c.sockId, connectedAt := now }
      let st' : ServerState := { st with onlineUsers := mapSet st.onlineUsers c.sockId entry }
      (st', c',
        [.toSocket c.sockId (.authSuccess u),
         .broadcastAll (.usersOnline (usersOnlineList st'))])

/-- The `join_conversation` handler: requires only that the connection is
authenticated; joins the room derived from the payload fields `userId`/`friendId`
pair (not from the bound user) and replies with the history of that pair. -/
def joinConversationHandler (st : ServerState) (c : Conn) (userId friendId : Nat) :
    ServerState × List Effect :=
  match c.userId with
  | none => (st, [.toSocket c.sockId (.error ("Chưa xác thực"))])
  | some _ =>
    ({ st with rooms := joinRoom st.rooms (roomId userId friendId) c.sockId },
     [.toSocket c.sockId (.messageHistory (historyQuery st.users st.messages userId friendId 50))])

/-- Outcome of the `INSERT INTO messages` write. -/
inductive WriteOutcome
  | ok
  | fail
deriving DecidableEq

/-- The `send_message` handler.  Validation order matches the source: not
authenticated, then empty trimmed content, then sender mismatch; only then is
the INSERT attempted, and only its success callback broadcasts. -/
def sendMessageHandler (st : ServerState) (c : Conn) (senderId receiverId : Nat)
    (content : String) (w : WriteOutcome) (now : Nat) : ServerState × List Effect :=
  match c.userId with
  | none => (st, [.toSocket c.sockId (.error ("Chưa xác thực"))])
  | some uid =>
    if jsTrim content = "" then
      (st, [.toSocket c.sockId (.error ("Tin nhắn không được để trống"))])
    else if senderId ≠ uid then
      (st, [.toSocket c.sockId (.error ("Không có quyền gửi tin nhắn"))])
    else
      match w with
      | .fail => (st, [.toSocket c.sockId (.error ("Lỗi khi lưu tin nhắn"))])
      | .ok =>
        let row : MessageRow :=
          { id := st.nextId, sender_id := senderId, receiver_id := receiverId,
            content := jsTrim content, timestamp := now }
        let wire : WireMessage :=
          { id := st.nextId, senderId := senderId, receiverId := receiverId,
            content := jsTrim content, timestamp := now, senderName := c.userName }
        ({ st with messages := st.messages ++ [row], nextId := st.nextId + 1 },
         [.toRoom (roomId senderId receiverId) (.newMessage wire)])

/-- The `typing` handler: silently ignored when unauthenticated; otherwise a
`socket.to(room)` broadcast, which excludes exactly the emitting socket. -/
def typingHandler (c : Conn) (receiverId : Nat)
    (isTyping : Bool) : List Effect :=
  match c.userId with
  | none => []
  | some uid =>
    [.toRoomExcept (roomId uid receiverId) c.sockId (.userTyping uid c.userName isTyping)]

/-- The `disconnect` handler: delete the `onlineUsers` entry of this socket and
broadcast the fresh roster.  (Room membership removal is done by the socket.io
runtime itself, not by this handler.) -/
def disconnectHandler (st : ServerState) (c : Conn) : ServerState × List Effect :=
  let st' : ServerState :=
    { st with onlineUsers := st.onlineUsers.filter (fun p => p.1 ≠ c.sockId) }
  (st', [.broadcastAll (.usersOnline (usersOnlineList st'))])

/-! ## Concrete fixtures -/

/-- User 1 ("A"). -/
def userA : User := { id := 1, name := "A", phone := "0123456789" }

/-- User 2 ("B"). -/
def userB : User := { id := 2, name := "B", phone := "0123456780" }

/-- Registry entry for user `u` on socket `sid` (connected at time 0). -/
def entryFor (u : User) (sid : Nat) : OnlineEntry :=
  { userId := u.id, name := u.name, phone := u.phone, socketId := sid, connectedAt := 0 }

/-- The registry entry the `authenticate` handler builds for user `u` on
socket `sid` at time `now`. -/
def newEntry (u : User) (sid now : Nat) : OnlineEntry :=
  { userId := u.id, name := u.name, phone := u.phone, socketId := sid, connectedAt := now }

/-- Base state: users A and B exist, nothing else going on. -/
def st0 : ServerState :=
  { users := [userA, userB], friends := [], messages := [], nextId := 1,
    onlineUsers := [], rooms := [] }

/-- First connection of A (socket 10), authenticated. -/
def connA1 : Conn :=
  { sockId := 10, userId := some 1, userName := "A", userPhone := "0123456789" }

/-- State for the typing scenario: A online on sockets 10 and 11, B on socket
20, all three joined to channel (1,2). -/
def stC2 : ServerState :=
  { users := [userA, userB], friends := [(1, 2)], messages := [], nextId := 1,
    onlineUsers := [(10, entryFor userA 10), (11, entryFor userA 11), (20, entryFor userB 20)],
    rooms := [(roomId 1 2, 10), (roomId 1 2, 11), (roomId 1 2, 20)] }

/-- Connection of a third user C (id 3), unrelated to the pair (1,2). -/
def connC9 : Conn :=
  { sockId := 30, userId := some 3, userName := "C", userPhone := "0123456781" }

/-- Ascending order by (timestamp, id) — the ordering of the spec with the id
tie-break. -/
def tsIdLE (a b : WireMessage) : Prop :=
  a.timestamp < b.timestamp ∨ (a.timestamp = b.timestamp ∧ a.id ≤ b.id)

instance : DecidableRel tsIdLE := fun a b =>
  inferInstanceAs (Decidable (a.timestamp < b.timestamp ∨ (a.timestamp = b.timestamp ∧ a.id ≤ b.id)))

/-- Spec-words definition for claim C1: the LATEST (by timestamp then id) at
most 50 messages of the pair, in ascending order — i.e. the last up-to-50
elements of the full ascending history. -/
def latestHistorySpec (users : List User) (msgs : List MessageRow) (u f : Nat) :
    List WireMessage :=
  (List.insertionSort tsIdLE (joinSenders users (pairRows msgs u f))).drop
    ((List.insertionSort tsIdLE (joinSenders users (pairRows msgs u f))).length - 50)

/-- 51 messages between users 1 and 2, ids and timestamps 1..51. -/
def c1Msgs : List MessageRow :=
  (List.range 51).map (fun i =>
    { id := i + 1, sender_id := 1, receiver_id := 2, content := "m", timestamp := i + 1 })

/-- Fresh unauthenticated connection on socket 10. -/
def sock10 : Conn := { sockId := 10, userId := none, userName := "", userPhone := "" }

/-- Fresh unauthenticated connection on socket 11. -/
def sock11 : Conn := { sockId := 11, userId := none, userName := "", userPhone := "" }

/-- Fresh unauthenticated connection on socket 12. -/
def sock12 : Conn := { sockId := 12, userId := none, userName := "", userPhone := "" }

/-- Socket 10 authenticates as user 2. -/
def c4Step1 : ServerState × Conn × List Effect :=
  authenticateHandler st0 sock10 (TokenOutcome.decoded 2) 0

/-- Then socket 11 authenticates as user 1. -/
def c4Step2 : ServerState × Conn × List Effect :=
  authenticateHandler c4Step1.1 sock11 (TokenOutcome.decoded 1) 0

/-- Then socket 12 authenticates as user 2 again (second concurrent
connection of user 2). -/
def c4Step3 : ServerState × Conn × List Effect :=
  authenticateHandler c4Step2.1 sock12 (TokenOutcome.decoded 2) 0

/-- State for the re-authentication scenario: A bound on socket 10, already in
the registry. -/
def stC8 : ServerState :=
  { users := [userA, userB], friends := [], messages := [], nextId := 1,
    onlineUsers := [(10, entryFor userA 10)], rooms := [] }

/-! ## Theorems -/

theorem digitVal_digitChar : ∀ d : Nat, d < 10 → digitVal (digitChar d) = d := by
  decide

theorem digitChar_ne_dash (d : Nat) : digitChar d ≠ '-' := by
  unfold digitChar
  split_ifs <;> decide

theorem digitsVal_append_singleton (l : List Char) (c : Char) :
    digitsVal (l ++ [c]) = 10 * digitsVal l + digitVal c := by
  simp [digitsVal, List.foldl_append]

theorem digitsVal_natDigits : ∀ fuel n : Nat, n < fuel →
    digitsVal (natDigits fuel n) = n := by
  intro fuel
  induction fuel with
  | zero => intro n h; omega
  | succ fuel ih =>
    intro n h
    by_cases h10 : n < 10
    · simp [natDigits, h10, digitsVal, digitVal_digitChar n h10]
    · have hdiv : n / 10 < fuel := by
        have h1 : n / 10 < n := Nat.div_lt_self (by omega) (by omega)
        omega
      have hmod : n % 10 < 10 := Nat.mod_lt _ (by omega)
      simp [natDigits, h10, digitsVal_append_singleton, ih _ hdiv,
        digitVal_digitChar _ hmod]
      omega

theorem dash_not_mem_natDigits : ∀ fuel n : Nat, '-' ∉ natDigits fuel n := by
  intro fuel
  induction fuel with
  | zero => intro n; simp [natDigits]
  | succ fuel ih =>
    intro n
    by_cases h10 : n < 10
    · simp [natDigits, h10]
      exact fun h => digitChar_ne_dash n h.symm
    · simp [natDigits, h10]
      refine ⟨ih _, fun h => digitChar_ne_dash _ h.symm⟩

theorem natToString_inj {m n : Nat} (h : natToString m = natToString n) : m = n := by
  have hdig : natDigits (m + 1) m = natDigits (n + 1) n := by
    have := congrArg String.data h
    simpa [natToString] using this
  have hm := digitsVal_natDigits (m + 1) m (Nat.lt_succ_self m)
  have hn := digitsVal_natDigits (n + 1) n (Nat.lt_succ_self n)
  rw [← hm, ← hn, hdig]

theorem append_dash_inj : ∀ (l1 l2 r1 r2 : List Char), '-' ∉ l1 → '-' ∉ l2 →
    l1 ++ '-' :: r1 = l2 ++ '-' :: r2 → l1 = l2 ∧ r1 = r2 := by
  intro l1
  induction l1 with
  | nil =>
    intro l2 r1 r2 _ h2 he
    cases l2 with
    | nil => simpa using he
    | cons y ys =>
      simp only [List.nil_append, List.cons_append, List.cons.injEq] at he
      obtain ⟨hhd, _⟩ := he
      subst hhd
      exact absurd (List.mem_cons_self _ _) h2
  | cons x xs ih =>
    intro l2 r1 r2 h1 h2 he
    cases l2 with
    | nil =>
      simp only [List.nil_append, List.cons_append, List.cons.injEq] at he
      obtain ⟨hhd, _⟩ := he
      subst hhd
      exact absurd (List.mem_cons_self _ _) h1
    | cons y ys =>
      simp only [List.cons_append, List.cons.injEq] at he
      have hx : '-' ∉ xs := fun h => h1 (List.mem_cons_of_mem x h)
      have hy : '-' ∉ ys := fun h => h2 (List.mem_cons_of_mem y h)
      obtain ⟨hl, hr⟩ := ih ys r1 r2 hx hy he.2
      exact ⟨by rw [he.1, hl], hr⟩

theorem roomId_inj_components {a b c d : Nat} (h : roomId a b = roomId c d) :
    min a b = min c d ∧ max a b = max c d := by
  have hdata := congrArg String.data h
  simp only [roomId, natToString, String.data_append] at hdata
  have hsplit := append_dash_inj _ _ _ _
    (dash_not_mem_natDigits _ _) (dash_not_mem_natDigits _ _)
    (by simpa using hdata)
  constructor
  · exact natToString_inj (congrArg String.mk hsplit.1)
  · exact natToString_inj (congrArg String.mk hsplit.2)

/-- C5: the channel-id derivation (sort the two user ids ascending, join with
the fixed delimiter `'-'`) is commutative, and for a fixed `a` distinct peers
`b ≠ c` yield distinct channel ids. -/
theorem C5_roomId_commutative_and_distinguishes_peers :
    (∀ a b : Nat, roomId a b = roomId b a) ∧
    (∀ a b c : Nat, b ≠ c → roomId a b ≠ roomId a c) := by
  constructor
  · intro a b
    simp [roomId, Nat.min_comm, Nat.max_comm]
  · intro a b c hbc h
    obtain ⟨hmin, hmax⟩ := roomId_inj_components h
    omega

/-- Witness for C5 at concrete ids. -/
theorem C5_witness :
    roomId 1 2 = roomId 2 1 ∧ ((2 : Nat) ≠ 5 ∧ roomId 1 2 ≠ roomId 1 5) :=
  ⟨C5_roomId_commutative_and_distinguishes_peers.1 1 2, by decide,
   C5_roomId_commutative_and_distinguishes_peers.2 1 2 5 (by decide)⟩

/-- C2 counterexample: with A on sockets 10 (C1) and 11 (C2) both joined to
channel (1,2), a typing event from socket 10 is a `socket.to(room)` emit that
IS delivered to socket 11 — the second connection of A receives `user_typing`,
contradicting the claimed self-exclusion of all connections of the sender. -/
theorem C2_counterexample :
    typingHandler connA1 2 true =
      [Effect.toRoomExcept (roomId 1 2) 10 (OutEvent.userTyping 1 "A" true)] ∧
    deliversTo stC2 (Effect.toRoomExcept (roomId 1 2) 10 (OutEvent.userTyping 1 "A" true)) 11 = true := by
  exact ⟨by decide, by decide⟩

/-- C2 (amended): a typing event from an authenticated connection is broadcast
to every connection joined to the channel except the emitting connection
itself; other connections of the sender, if joined, do receive it, and the
emitting connection never does. -/
theorem C2_typing_excludes_only_sending_connection
    (st : ServerState) (c : Conn) (uid receiverId : Nat) (t : Bool)
    (h : c.userId = some uid) :
    typingHandler c receiverId t =
      [Effect.toRoomExcept (roomId uid receiverId) c.sockId (OutEvent.userTyping uid c.userName t)] ∧
    (∀ sid, sid ∈ roomMembers st (roomId uid receiverId) → sid ≠ c.sockId →
      deliversTo st (Effect.toRoomExcept (roomId uid receiverId) c.sockId
        (OutEvent.userTyping uid c.userName t)) sid = true) ∧
    deliversTo st (Effect.toRoomExcept (roomId uid receiverId) c.sockId
      (OutEvent.userTyping uid c.userName t)) c.sockId = false := by
  refine ⟨by simp [typingHandler, h], ?_, by simp [deliversTo]⟩
  intro sid hmem hne
  simp [deliversTo, hmem, hne]

/-- Witness for the amended C2 theorem: in the concrete typing scenario the
socket 20 of B (joined, not the sender) receives the event. -/
theorem C2_witness :
    (connA1.userId = some 1 ∧ 20 ∈ roomMembers stC2 (roomId 1 2) ∧ (20 : Nat) ≠ 10) ∧
    deliversTo stC2 (Effect.toRoomExcept (roomId 1 2) 10 (OutEvent.userTyping 1 "A" true)) 20 = true :=
  ⟨⟨rfl, by decide, by decide⟩,
   (C2_typing_excludes_only_sending_connection stC2 connA1 1 2 true rfl).2.1 20 (by decide) (by decide)⟩

/-- C9: for any authenticated connection bound to `w`, `join_conversation`
with payload pair `(u, f)` joins the connection to room `(u, f)` and sends
the history of that pair — with no check that `w` is `u` or `f` and no friendship
lookup (the theorem holds for every `st`, hence for every `friends` table and
every unrelated `w`). -/
theorem C9_join_unrestricted (st : ServerState) (c : Conn) (w u f : Nat)
    (h : c.userId = some w) :
    (roomId u f, c.sockId) ∈ (joinConversationHandler st c u f).1.rooms ∧
    (joinConversationHandler st c u f).1 =
      { st with rooms := joinRoom st.rooms (roomId u f) c.sockId } ∧
    (joinConversationHandler st c u f).2 =
      [Effect.toSocket c.sockId
        (OutEvent.messageHistory (historyQuery st.users st.messages u f 50))] := by
  refine ⟨?_, by simp [joinConversationHandler, h], by simp [joinConversationHandler, h]⟩
  simp only [joinConversationHandler, h]
  unfold joinRoom
  by_cases hm : (roomId u f, c.sockId) ∈ st.rooms
  · simp only [if_pos hm]
    exact hm
  · simp [hm]

/-- Witness for C9: the connection of user 3 joins conversation (1,2) — a pair it
does not belong to, with no friendship row — and still gets the room and the
history. -/
theorem C9_witness :
    (connC9.userId = some 3) ∧
    ((roomId 1 2, 30) ∈ (joinConversationHandler st0 connC9 1 2).1.rooms ∧
     (joinConversationHandler st0 connC9 1 2).1 =
       { st0 with rooms := joinRoom st0.rooms (roomId 1 2) 30 } ∧
     (joinConversationHandler st0 connC9 1 2).2 =
       [Effect.toSocket 30
         (OutEvent.messageHistory (historyQuery st0.users st0.messages 1 2 50))]) :=
  ⟨rfl, C9_join_unrestricted st0 connC9 3 1 2 rfl⟩

/-- C10: an authenticated connection with matching `senderId` and non-empty
trimmed content gets its message persisted and broadcast for ANY `receiverId`
whatsoever — the handler performs no friendship check and no lookup of the
receiver in the users table (the theorem quantifies over every `receiverId`
and every `st`, hence every `friends` and `users` table content). -/
theorem C10_send_any_receiver (st : ServerState) (c : Conn)
    (uid receiverId now : Nat) (content : String)
    (h : c.userId = some uid) (hc : jsTrim content ≠ "") :
    ({ id := st.nextId, sender_id := uid, receiver_id := receiverId,
       content := jsTrim content, timestamp := now } : MessageRow) ∈
      (sendMessageHandler st c uid receiverId content WriteOutcome.ok now).1.messages ∧
    (sendMessageHandler st c uid receiverId content WriteOutcome.ok now).2 =
      [Effect.toRoom (roomId uid receiverId)
        (OutEvent.newMessage
          { id := st.nextId, senderId := uid, receiverId := receiverId,
            content := jsTrim content, timestamp := now, senderName := c.userName })] := by
  constructor <;> simp [sendMessageHandler, h, hc]

/-- Witness for C10: user 1 sends to receiver id 999 — not a registered user,
not a friend — and the message is persisted and broadcast anyway. -/
theorem C10_witness :
    (connA1.userId = some 1 ∧ jsTrim ("hi") ≠ "") ∧
    (({ id := 1, sender_id := 1, receiver_id := 999,
        content := "hi", timestamp := 7 } : MessageRow) ∈
       (sendMessageHandler st0 connA1 1 999 "hi" WriteOutcome.ok 7).1.messages ∧
     (sendMessageHandler st0 connA1 1 999 "hi" WriteOutcome.ok 7).2 =
       [Effect.toRoom (roomId 1 999)
         (OutEvent.newMessage
           { id := 1, senderId := 1, receiverId := 999,
             content := "hi", timestamp := 7, senderName := "A" })]) :=
  ⟨⟨rfl, by decide⟩, C10_send_any_receiver st0 connA1 1 999 7 "hi" rfl (by decide)⟩

/-- C6: `send_message` from an authenticated connection with empty or
whitespace-only content leaves the state unchanged (no row inserted) and emits
exactly one `error` event to the sender — no `new_message` broadcast, no
connection close — regardless of what the INSERT would have done. -/
theorem C6_empty_content_rejected (st : ServerState) (c : Conn)
    (uid senderId receiverId now : Nat) (content : String) (w : WriteOutcome)
    (h : c.userId = some uid) (hc : jsTrim content = "") :
    sendMessageHandler st c senderId receiverId content w now =
      (st, [Effect.toSocket c.sockId (OutEvent.error ("Tin nhắn không được để trống"))]) := by
  simp [sendMessageHandler, h, hc]

/-- Witness for C6 at whitespace-only content. -/
theorem C6_witness :
    (connA1.userId = some 1 ∧ jsTrim ("   ") = "") ∧
    sendMessageHandler st0 connA1 1 2 "   " WriteOutcome.ok 7 =
      (st0, [Effect.toSocket 10 (OutEvent.error ("Tin nhắn không được để trống"))]) :=
  ⟨⟨rfl, by decide⟩, C6_empty_content_rejected st0 connA1 1 1 2 7 "   " WriteOutcome.ok rfl (by decide)⟩

/-- C7: `send_message` from an authenticated connection whose payload
`senderId` differs from the bound user (content non-empty, so the earlier
empty-content check passes) leaves the state unchanged, emits exactly one
`error` event to the sender, and performs no broadcast and no connection
close. -/
theorem C7_spoofed_sender_rejected (st : ServerState) (c : Conn)
    (uid senderId receiverId now : Nat) (content : String) (w : WriteOutcome)
    (h : c.userId = some uid) (hc : jsTrim content ≠ "") (hs : senderId ≠ uid) :
    sendMessageHandler st c senderId receiverId content w now =
      (st, [Effect.toSocket c.sockId (OutEvent.error ("Không có quyền gửi tin nhắn"))]) := by
  simp [sendMessageHandler, h, hc, hs]

/-- Witness for C7: connection bound to user 1 declares `senderId = 2`. -/
theorem C7_witness :
    (connA1.userId = some 1 ∧ jsTrim ("hi") ≠ "" ∧ (2 : Nat) ≠ 1) ∧
    sendMessageHandler st0 connA1 2 2 "hi" WriteOutcome.ok 7 =
      (st0, [Effect.toSocket 10 (OutEvent.error ("Không có quyền gửi tin nhắn"))]) :=
  ⟨⟨rfl, by decide, by decide⟩,
   C7_spoofed_sender_rejected st0 connA1 1 2 2 7 "hi" WriteOutcome.ok rfl (by decide) (by decide)⟩

/-- C3: a `new_message` effect can only arise from a completed successful
INSERT, and it then carries the store-assigned id for a row the final message
store contains (so a history query issued after the broadcast returns it);
when the INSERT fails the state is exactly the pre-call state, no effect
carries `new_message`, and — when the validations had passed, i.e. the
write was actually attempted — the sender gets exactly one explicit `error`
event. -/
theorem C3_broadcast_only_after_persist
    (st : ServerState) (c : Conn) (uid senderId receiverId now : Nat)
    (content : String) (w : WriteOutcome) (h : c.userId = some uid) :
    (∀ e ∈ (sendMessageHandler st c senderId receiverId content w now).2,
       isNewMessageEffect e = true →
       w = WriteOutcome.ok ∧
       ({ id := st.nextId, sender_id := senderId, receiver_id := receiverId,
          content := jsTrim content, timestamp := now } : MessageRow) ∈
         (sendMessageHandler st c senderId receiverId content w now).1.messages) ∧
    (w = WriteOutcome.fail →
       (sendMessageHandler st c senderId receiverId content w now).1 = st ∧
       (∀ e ∈ (sendMessageHandler st c senderId receiverId content w now).2,
          isNewMessageEffect e = false) ∧
       (jsTrim content ≠ "" → senderId = uid →
          (sendMessageHandler st c senderId receiverId content w now).2 =
            [Effect.toSocket c.sockId (OutEvent.error ("Lỗi khi lưu tin nhắn"))])) := by
  by_cases hc : jsTrim content = ""
  · constructor
    · intro e he hn
      simp [sendMessageHandler, h, hc] at he
      subst he
      simp [isNewMessageEffect] at hn
    · intro _
      refine ⟨by simp [sendMessageHandler, h, hc], ?_, fun hcc _ => absurd hc hcc⟩
      intro e he
      simp [sendMessageHandler, h, hc] at he
      subst he
      simp [isNewMessageEffect]
  · by_cases hs : senderId = uid
    · cases w with
      | ok =>
        constructor
        · intro e _ _
          refine ⟨rfl, ?_⟩
          simp [sendMessageHandler, h, hc, hs]
        · intro hw
          cases hw
      | fail =>
        constructor
        · intro e he hn
          simp [sendMessageHandler, h, hc, hs] at he
          subst he
          simp [isNewMessageEffect] at hn
        · intro _
          refine ⟨by simp [sendMessageHandler, h, hc, hs], ?_,
            fun _ _ => by simp [sendMessageHandler, h, hc, hs]⟩
          intro e he
          simp [sendMessageHandler, h, hc, hs] at he
          subst he
          simp [isNewMessageEffect]
    · constructor
      · intro e he hn
        simp [sendMessageHandler, h, hc, hs] at he
        subst he
        simp [isNewMessageEffect] at hn
      · intro _
        refine ⟨by simp [sendMessageHandler, h, hc, hs], ?_, fun _ hss => absurd hss hs⟩
        intro e he
        simp [sendMessageHandler, h, hc, hs] at he
        subst he
        simp [isNewMessageEffect]

/-- Witness for C3 on the failing-write path: state unchanged, no
`new_message` anywhere, explicit error to the sender. -/
theorem C3_witness :
    (connA1.userId = some 1) ∧
    ((∀ e ∈ (sendMessageHandler st0 connA1 1 2 "hi" WriteOutcome.fail 7).2,
        isNewMessageEffect e = true →
        WriteOutcome.fail = WriteOutcome.ok ∧
        ({ id := st0.nextId, sender_id := 1, receiver_id := 2,
           content := jsTrim ("hi"), timestamp := 7 } : MessageRow) ∈
          (sendMessageHandler st0 connA1 1 2 "hi" WriteOutcome.fail 7).1.messages) ∧
     (WriteOutcome.fail = WriteOutcome.fail →
        (sendMessageHandler st0 connA1 1 2 "hi" WriteOutcome.fail 7).1 = st0 ∧
        (∀ e ∈ (sendMessageHandler st0 connA1 1 2 "hi" WriteOutcome.fail 7).2,
           isNewMessageEffect e = false) ∧
        (jsTrim ("hi") ≠ "" → (1 : Nat) = 1 →
           (sendMessageHandler st0 connA1 1 2 "hi" WriteOutcome.fail 7).2 =
             [Effect.toSocket 10 (OutEvent.error ("Lỗi khi lưu tin nhắn"))]))) :=
  ⟨rfl, C3_broadcast_only_after_persist st0 connA1 1 1 2 7 "hi" WriteOutcome.fail rfl⟩

/-- C1 (amended): the `join_conversation` reply is ascending by timestamp, at
most 50 long, and consists of the OLDEST messages of the pair — every message
of the pair beyond the reply (the part dropped by `LIMIT 50`) has a timestamp
at least as large as everything in the reply.  (`ORDER BY timestamp ASC LIMIT
50` keeps the first, i.e. oldest, 50 rows.) -/
theorem C1_history_oldest50_ascending (users : List User) (msgs : List MessageRow)
    (u f : Nat) :
    List.Sorted tsLE (historyQuery users msgs u f 50) ∧
    (historyQuery users msgs u f 50).length ≤ 50 ∧
    ∀ a ∈ historyQuery users msgs u f 50,
      ∀ b ∈ (List.insertionSort tsLE (joinSenders users (pairRows msgs u f))).drop 50,
        a.timestamp ≤ b.timestamp := by
  have hs : List.Sorted tsLE (List.insertionSort tsLE (joinSenders users (pairRows msgs u f))) :=
    List.sorted_insertionSort tsLE _
  refine ⟨?_, ?_, ?_⟩
  · exact hs.sublist (List.take_sublist _ _)
  · rw [historyQuery, List.length_take]
    omega
  · have hsplit := hs
    rw [← List.take_append_drop 50
      (List.insertionSort tsLE (joinSenders users (pairRows msgs u f)))] at hsplit
    exact fun a ha b hb => (List.pairwise_append.mp hsplit).2.2 a ha b hb

/-- C1 counterexample: with 51 persisted messages for the pair (1,2), the
reply computed by the `join_conversation` handler (oldest 50, ids 1..50) is
not the claimed latest-50 snapshot (ids 2..51): the code keeps the oldest 50,
not the newest 50. -/
theorem C1_counterexample :
    historyQuery [userA, userB] c1Msgs 1 2 50 ≠ latestHistorySpec [userA, userB] c1Msgs 1 2 := by
  decide

/-- C4 counterexample: after sockets 10, 11, 12 authenticate as users 2, 1, 2,
the `users_online` snapshot broadcast by the third authentication lists user
ids `[2, 1, 2]` — user 2 (two concurrent connections) appears twice, not
exactly once, and the order is not ascending by user id. -/
theorem C4_counterexample :
    c4Step3.2.2 =
      [Effect.toSocket 12 (OutEvent.authSuccess userB),
       Effect.broadcastAll (OutEvent.usersOnline
         [entryFor userB 10, entryFor userA 11, entryFor userB 12])] ∧
    ((usersOnlineList c4Step3.1).map (fun e => e.userId) = [2, 1, 2] ∧
     ¬ ((usersOnlineList c4Step3.1).map (fun e => e.userId)).Nodup ∧
     ¬ List.Pairwise (· ≤ ·) ((usersOnlineList c4Step3.1).map (fun e => e.userId))) := by
  exact ⟨by decide, by decide, by decide, by decide⟩

/-- C4 (amended): the `users_online` snapshot broadcast on a successful
authentication is the list of registry values keyed by SOCKET id in insertion
order — one entry per authenticated connection, neither deduplicated by user
id nor sorted; a user already online on another socket appears at least twice
in the freshly broadcast snapshot. -/
theorem C4_snapshot_lists_every_connection
    (st : ServerState) (c : Conn) (uid now : Nat) (u : User)
    (hfind : findUserById st.users uid = some u)
    (hfresh : ∀ p ∈ st.onlineUsers, p.1 ≠ c.sockId) :
    (authenticateHandler st c (TokenOutcome.decoded uid) now).2.2 =
      [Effect.toSocket c.sockId (OutEvent.authSuccess u),
       Effect.broadcastAll (OutEvent.usersOnline (usersOnlineList st ++
         [newEntry u c.sockId now]))] ∧
    (∀ e ∈ usersOnlineList st, e.userId = u.id →
       2 ≤ (usersOnlineList st ++
         [newEntry u c.sockId now]).countP (fun x => x.userId = u.id)) := by
  have hany : (st.onlineUsers.any (fun p => p.1 = c.sockId)) = false := by
    simp only [List.any_eq_false, decide_eq_true_eq]
    exact hfresh
  constructor
  · simp [authenticateHandler, hfind, mapSet, hany, usersOnlineList, newEntry]
  · intro e he heq
    have h1 : 0 < (usersOnlineList st).countP (fun x => decide (x.userId = u.id)) :=
      List.countP_pos_iff.mpr ⟨e, he, by simp [heq]⟩
    rw [List.countP_append]
    have h2 : ([newEntry u c.sockId now]).countP
          (fun x => decide (x.userId = u.id)) = 1 := by simp [newEntry]
    omega

/-- Witness for the amended C4 theorem: socket 12 authenticates as user 2 while
socket 10 is already online as user 2; the broadcast snapshot contains user 2
at least twice. -/
theorem C4_witness :
    (findUserById c4Step1.1.users 2 = some userB ∧
     ∀ p ∈ c4Step1.1.onlineUsers, p.1 ≠ 12) ∧
    ((authenticateHandler c4Step1.1 sock12 (TokenOutcome.decoded 2) 0).2.2 =
       [Effect.toSocket 12 (OutEvent.authSuccess userB),
        Effect.broadcastAll (OutEvent.usersOnline (usersOnlineList c4Step1.1 ++
          [newEntry userB 12 0]))] ∧
     (∀ e ∈ usersOnlineList c4Step1.1, e.userId = userB.id →
        2 ≤ (usersOnlineList c4Step1.1 ++
          [newEntry userB 12 0]).countP (fun x => x.userId = userB.id))) :=
  ⟨⟨by decide, by decide⟩,
   C4_snapshot_lists_every_connection c4Step1.1 sock12 2 0 userB (by decide) (by decide)⟩

/-- C8 counterexample: socket 10 is already bound to user 1; a second
`authenticate` with a valid token for user 2 does NOT fail with any error —
it emits `auth_success` and silently rebinds the connection to user 2,
overwriting the registry entry. -/
theorem C8_counterexample :
    ((authenticateHandler stC8 connA1 (TokenOutcome.decoded 2) 0).2.1).userId = some 2 ∧
    (authenticateHandler stC8 connA1 (TokenOutcome.decoded 2) 0).2.2 =
      [Effect.toSocket 10 (OutEvent.authSuccess userB),
       Effect.broadcastAll (OutEvent.usersOnline [entryFor userB 10])] := by
  exact ⟨by decide, by decide⟩

/-- C8 (amended): an `authenticate` on a connection that already has a bound
user, carrying a valid token for an existing user `u`, silently rebinds the
connection to `u` and emits `auth_success` and the roster broadcast — no
`auth_error` (and no `AlreadyAuthenticated` failure) is produced and the old
binding is overwritten. -/
theorem C8_reauthenticate_silently_rebinds
    (st : ServerState) (c : Conn) (uid0 uid now : Nat) (u : User)
    (_hbound : c.userId = some uid0)
    (hfind : findUserById st.users uid = some u) :
    ((authenticateHandler st c (TokenOutcome.decoded uid) now).2.1).userId = some u.id ∧
    (authenticateHandler st c (TokenOutcome.decoded uid) now).2.2 =
      [Effect.toSocket c.sockId (OutEvent.authSuccess u),
       Effect.broadcastAll (OutEvent.usersOnline
         (usersOnlineList (authenticateHandler st c (TokenOutcome.decoded uid) now).1))] ∧
    (∀ e ∈ (authenticateHandler st c (TokenOutcome.decoded uid) now).2.2,
       isAuthErrorEffect e = false) := by
  refine ⟨by simp [authenticateHandler, hfind], by simp [authenticateHandler, hfind], ?_⟩
  intro e he
  simp [authenticateHandler, hfind] at he
  rcases he with he | he <;> subst he <;> simp [isAuthErrorEffect]

/-- Witness for the amended C8 theorem at the concrete rebinding scenario. -/
theorem C8_witness :
    (connA1.userId = some 1 ∧ findUserById stC8.users 2 = some userB) ∧
    (((authenticateHandler stC8 connA1 (TokenOutcome.decoded 2) 0).2.1).userId = some userB.id ∧
     (authenticateHandler stC8 connA1 (TokenOutcome.decoded 2) 0).2.2 =
       [Effect.toSocket 10 (OutEvent.authSuccess userB),
        Effect.broadcastAll (OutEvent.usersOnline
          (usersOnlineList (authenticateHandler stC8 connA1 (TokenOutcome.decoded 2) 0).1))] ∧
     (∀ e ∈ (authenticateHandler stC8 connA1 (TokenOutcome.decoded 2) 0).2.2,
        isAuthErrorEffect e = false)) :=
  ⟨⟨rfl, by decide⟩,
   C8_reauthenticate_silently_rebinds stC8 connA1 1 2 0 userB rfl (by decide)⟩
